import Mathlib

/-!
Verification of the case-summarizer pipeline (src/summarizer/).

This file shallowly embeds the pure/algorithmic core of the repository:

* `uscourts_scraper.py` — link extraction from email text (GovDelivery
  redirect unwrapping, direct-URL scanning, dedup, PDF-suffix filtering),
  landing-page metadata extraction (PDF anchor choice, precedential flag,
  case-name cleanup), and `process_uscourts_link`.
* `openai_summarizer.py` — the structured-classification response parsing
  (`_extract_structured_info`), metadata-response parsing, and
  `summarize_text`, with the hosted model treated as an oracle.
* `gmail_checker.py` — digest bucketing in `send_summary_email` and the
  `process_court_emails` orchestrator (idempotency gate, per-email /
  per-link loops), with the network, filesystem, and mail service modelled
  as an explicit `World`.

Machine-level Python behaviour that the claims depend on is modelled
explicitly: tuple unpacking of a dynamically sized tuple (`unpack6`),
truthiness (`pyTruthy`), attribute lookup on a missing dataclass field,
and the `json.loads` boundary (a small JSON reader covering the JSON
subset exercised by the theorems).
-/

set_option maxRecDepth 10000

/-! ## Basic character and string helpers -/

/-- ASCII whitespace, matching both Python's `str.strip()` default set and
the `\s` class of the `re` module on the ASCII range. -/
def isPyWs (c : Char) : Bool :=
  c == ' ' || c == '\t' || c == '\n' || c == '\r' || c == '\x0b' || c == '\x0c'

/-- The single-quote character (spelled by code point). -/
def quoteCh : Char := Char.ofNat 39

/-- Lower-case an ASCII string, as `str.lower()` does on ASCII input. -/
def lowerStr (s : String) : String := ⟨s.data.map Char.toLower⟩

/-- `startsWithL pat l` is true iff `pat` is an initial segment of `l`. -/
def startsWithL : List Char → List Char → Bool
  | [], _ => true
  | _ :: _, [] => false
  | p :: ps, c :: cs => p == c && startsWithL ps cs

/-- `hasSubL pat l` is true iff `pat` occurs contiguously inside `l`. -/
def hasSubL (pat : List Char) : List Char → Bool
  | [] => startsWithL pat []
  | c :: cs => startsWithL pat (c :: cs) || hasSubL pat cs

/-- `strHasSub hay needle` models Python's `needle in hay`. -/
def strHasSub (hay needle : String) : Bool := hasSubL needle.data hay.data

/-- `strEndsWith s suf` models Python's `s.endswith(suf)`. -/
def strEndsWith (s suf : String) : Bool :=
  startsWithL suf.data.reverse s.data.reverse

/-- Propositional form of substring occurrence. -/
def SubStr (needle hay : String) : Prop :=
  ∃ a b, hay.data = a ++ needle.data ++ b

/-- Python `text[:n]` as character slicing. -/
def strTake (s : String) (n : Nat) : String := ⟨s.data.take n⟩

/-- Strip leading and trailing ASCII whitespace, as `str.strip()`. -/
def pyStrip (s : String) : String :=
  ⟨((s.data.dropWhile isPyWs).reverse.dropWhile isPyWs).reverse⟩

/-- First-occurrence deduplication with an accumulator of already-seen
elements; models the content (not the unspecified iteration order) of
Python's `list(set(urls))`. -/
def dedupAux (seen : List String) : List String → List String
  | [] => []
  | x :: xs => if x ∈ seen then dedupAux seen xs else x :: dedupAux (x :: seen) xs

/-- Deduplicate a list of strings keeping first occurrences. -/
def dedupFirst (l : List String) : List String := dedupAux [] l

/-! ## Link extraction (`uscourts_scraper.extract_links_from_text`)

The two `re` patterns of the source are compiled by hand into
deterministic scanners over `List Char`.  Both patterns are simple enough
(literals, one lazy gap, greedy character classes, one optional group)
that Python's leftmost, non-overlapping `finditer`/`findall` semantics
can be reproduced without a general backtracking engine; the few
backtracking points (`s?`, `(?:www\.)?`, the lazy gap) are resolved
case-by-case exactly as the engine would. -/

/-- Case-insensitive literal match: `lit` must be given lower-cased, and
the input characters are lower-cased before comparison.  On success
returns the original (case-preserved) matched characters and the rest. -/
def matchLitCI : List Char → List Char → Option (List Char × List Char)
  | [], s => some ([], s)
  | _ :: _, [] => none
  | l :: ls, c :: cs =>
    if c.toLower == l then
      match matchLitCI ls cs with
      | some (o, r) => some (c :: o, r)
      | none => none
    else none

/-- Character class `[^\s<>"\')/]` of the GovDelivery capture group. -/
def allowedCapCh (c : Char) : Bool :=
  !isPyWs c && c != '<' && c != '>' && c != '"' && c != quoteCh &&
    c != ')' && c != '/'

/-- Character class `[^\s<>"\')]` of the direct-URL pattern tail. -/
def allowedDirCh (c : Char) : Bool :=
  !isPyWs c && c != '<' && c != '>' && c != '"' && c != quoteCh && c != ')'

/-- `[a-z0-9]` under `re.IGNORECASE`. -/
def isAlnumChCI (c : Char) : Bool :=
  ('a' ≤ c.toLower && c.toLower ≤ 'z') || ('0' ≤ c && c ≤ '9')

/-- Lazy-gap search for `[^\s]*?\.govdelivery\.com/CL0/(https?[^\s<>"\')/]*)`:
expand the gap one non-whitespace character at a time; at each position
the literal and then the capture's mandatory `http` are attempted, which
is exactly how the engine backtracks a lazy quantifier. -/
def govSeek : Nat → List Char → Option (List Char × List Char)
  | 0, _ => none
  | n + 1, s =>
    match matchLitCI ".govdelivery.com/cl0/".data s with
    | some (_, r1) =>
      match matchLitCI "http".data r1 with
      | some (h4, r2) =>
        let p := r2.span allowedCapCh
        some (h4 ++ p.1, p.2)
      | none =>
        match s with
        | [] => none
        | c :: cs => if isPyWs c then none else govSeek n cs
    | none =>
      match s with
      | [] => none
      | c :: cs => if isPyWs c then none else govSeek n cs

/-- One attempt of the GovDelivery pattern
`https?://links[^\s]*?\.govdelivery\.com/CL0/(https?[^\s<>"\')/]*)` at the
head of `s`; returns (capture, rest-after-match). -/
def govMatchAt (s : List Char) : Option (List Char × List Char) :=
  match matchLitCI "http".data s with
  | none => none
  | some (_, r1) =>
    match matchLitCI "s://links".data r1 with
    | some (_, r2) => govSeek (r2.length + 1) r2
    | none =>
      match matchLitCI "://links".data r1 with
      | some (_, r2) => govSeek (r2.length + 1) r2
      | none => none

/-- Left-to-right, non-overlapping scan with the GovDelivery pattern
(`re.finditer` semantics); emits the captured group of each match. -/
def govScanAux : Nat → List Char → List String
  | 0, _ => []
  | _ + 1, [] => []
  | n + 1, c :: cs =>
    match govMatchAt (c :: cs) with
    | some (cap, rest) => String.mk cap :: govScanAux n rest
    | none => govScanAux n cs

/-- All GovDelivery capture groups found in `text`. -/
def govScan (text : String) : List String :=
  govScanAux (text.data.length + 1) text.data

/-- `[a-z0-9]+` at the head of `s` (the greedy run needs no backtracking:
any shorter run leaves an alphanumeric character where the literal dot of
`\.uscourts\.gov` is required). -/
def spanAlnum1 (s : List Char) : Option (List Char × List Char) :=
  if ((s.span isAlnumChCI).1).isEmpty then none else some (s.span isAlnumChCI)

/-- Concatenation of the three mandatory host-tail pieces. -/
def matchHostTail (s : List Char) : Option (List Char × List Char) :=
  (spanAlnum1 s).bind fun nr =>
    (matchLitCI ".uscourts.gov".data nr.2).bind fun dr =>
      (matchLitCI "/".data dr.2).bind fun sr =>
        some (nr.1 ++ dr.1 ++ sr.1, sr.2)

/-- `s?://` after the mandatory `http`: try the `s` alternative first, as
the greedy optional does; the alternatives are mutually exclusive on the
next character. -/
def matchScheme (r1 : List Char) : Option (List Char × List Char) :=
  match matchLitCI "s://".data r1 with
  | some (m, r2) => some (m, r2)
  | none => matchLitCI "://".data r1

/-- Optional `www.` followed by the host tail, with engine backtracking:
prefer consuming `www.`, fall back to the bare host. -/
def matchHostPart (r2 : List Char) : Option (List Char × List Char) :=
  match matchLitCI "www.".data r2 with
  | some wr =>
    match matchHostTail wr.2 with
    | some tr => some (wr.1 ++ tr.1, tr.2)
    | none => matchHostTail r2
  | none => matchHostTail r2

/-- One attempt of the direct pattern
`https?://(?:www\.)?[a-z0-9]+\.uscourts\.gov/[^\s<>"\')]*` at the head of
`s`; returns (match, rest-after-match). -/
def matchDirectAt (s : List Char) : Option (List Char × List Char) :=
  (matchLitCI "http".data s).bind fun hr =>
    (matchScheme hr.2).bind fun mr =>
      (matchHostPart mr.2).bind fun pr =>
        some (hr.1 ++ mr.1 ++ pr.1 ++ (pr.2.span allowedDirCh).1,
          (pr.2.span allowedDirCh).2)

/-- Left-to-right, non-overlapping scan with the direct pattern
(`re.findall` semantics). -/
def directScanAux : Nat → List Char → List String
  | 0, _ => []
  | _ + 1, [] => []
  | n + 1, c :: cs =>
    match matchDirectAt (c :: cs) with
    | some (m, rest) => String.mk m :: directScanAux n rest
    | none => directScanAux n cs

/-- All direct-pattern matches found in `text`. -/
def directScan (text : String) : List String :=
  directScanAux (text.data.length + 1) text.data

/-- Hexadecimal digit value, if any. -/
def hexVal (c : Char) : Option Nat :=
  if '0' ≤ c && c ≤ '9' then some (c.toNat - 48)
  else if 'a' ≤ c && c ≤ 'f' then some (c.toNat - 87)
  else if 'A' ≤ c && c ≤ 'F' then some (c.toNat - 55)
  else none

/-- Percent-decoding, modelling `urllib.parse.unquote` on the ASCII
escapes exercised here (a `%XX` pair becomes the character with that code
point; malformed escapes are left untouched, as `unquote` leaves them).
Multi-byte UTF-8 escape sequences are outside the modelled subset. -/
def unquoteL : Nat → List Char → List Char
  | 0, s => s
  | _ + 1, [] => []
  | n + 1, c :: rest =>
    if c == '%' then
      match rest with
      | a :: b :: rest2 =>
        match hexVal a, hexVal b with
        | some x, some y => Char.ofNat (16 * x + y) :: unquoteL n rest2
        | _, _ => c :: unquoteL n rest
      | _ => c :: unquoteL n rest
    else c :: unquoteL n rest

/-- `urllib.parse.unquote` on strings. -/
def strUnquote (s : String) : String :=
  ⟨unquoteL (s.data.length + 1) s.data⟩

/-- First block of `extract_links_from_text`: every GovDelivery capture is
percent-decoded and kept iff the decoded URL contains `uscourts.gov`
case-insensitively (`'uscourts.gov' in decoded_url.lower()` — a substring
check on the whole URL, not a host check). -/
def wrappedCourtUrls (text : String) : List String :=
  (govScan text).filterMap fun encoded_url =>
    let decoded_url := strUnquote encoded_url
    if strHasSub (lowerStr decoded_url) "uscourts.gov" then some decoded_url
    else none

/-- `extract_links_from_text` (uscourts_scraper.py lines 161-194): union
the decoded wrapped URLs with the direct matches, deduplicate
(`list(set(urls))`; Python's set iteration order is unspecified, the
embedding fixes first-occurrence order — all theorems below are
order-independent), and drop URLs ending in `.pdf`. -/
def extract_links_from_text (text : String) : List String :=
  let urls := wrappedCourtUrls text ++ directScan text
  let unique_urls := dedupFirst urls
  unique_urls.filter fun url => !(strEndsWith url ".pdf")

/-! ## Landing-page metadata (`uscourts_scraper.extract_metadata_from_landing_page`)

A fetched landing page is modelled by the three signals the source reads
from the parsed markup: the `href` values of its anchors in document
order, the first `h1` heading's text, and `soup.get_text()`.  A fetch
returning `none` models `requests.RequestException` (timeout, HTTP error),
which the source catches and turns into `(None, False, None)`. -/

/-- Signals of a parsed landing page. -/
structure Page where
  anchors : List String
  h1 : Option String
  text : String

/-- Python truthiness of an optional string (`None` and `""` are falsy). -/
def optStrTruthy : Option String → Bool
  | none => false
  | some s => s != ""

/-- Precedential flag from the page's full text (uscourts_scraper.py lines
70-78): start from `False`; if `"Precedential"` occurs, and neither
`"Non-Precedential"` nor `"Nonprecedential"` occurs, set `True`. -/
def precedentialFromText (page_text : String) : Bool :=
  if strHasSub page_text "Precedential" then
    if !strHasSub page_text "Non-Precedential" && !strHasSub page_text "Nonprecedential"
    then true
    else false
  else false

/-- Tail test for `,?\s*(Precedential|Non-Precedential|Nonprecedential)\s*$`
(case-insensitive): optional comma, whitespace, one of the three status
words, trailing whitespace, end of string. -/
def statusTail (l : List Char) : Bool :=
  let l1 := match l with
    | c :: cs => if c == ',' then cs else l
    | [] => l
  let l2 := l1.dropWhile isPyWs
  let kw := match matchLitCI "precedential".data l2 with
    | some (_, r) => some r
    | none =>
      match matchLitCI "non-precedential".data l2 with
      | some (_, r) => some r
      | none =>
        match matchLitCI "nonprecedential".data l2 with
        | some (_, r) => some r
        | none => none
  match kw with
  | some r => r.dropWhile isPyWs == []
  | none => false

/-- `re.sub(r',?\s*(Precedential|Non-Precedential|Nonprecedential)\s*$', '', s,
flags=re.IGNORECASE)`: delete from the leftmost position whose tail
matches the anchored pattern. -/
def stripStatusSuffixL : List Char → List Char
  | [] => []
  | c :: cs => if statusTail (c :: cs) then [] else c :: stripStatusSuffixL cs

/-- One attempt of `\s*\[(OPINION|ORDER)\]\s*` (case-sensitive) at the head
of `s`; returns the rest after the match. -/
def matchTagAt (s : List Char) : Option (List Char) :=
  let p := s.span isPyWs
  if startsWithL "[OPINION]".data p.2 then
    some ((p.2.drop 9).dropWhile isPyWs)
  else if startsWithL "[ORDER]".data p.2 then
    some ((p.2.drop 7).dropWhile isPyWs)
  else none

/-- `re.sub(r'\s*\[(OPINION|ORDER)\]\s*', ' ', s)`: replace every
non-overlapping match by a single space, scanning left to right. -/
def stripTagsL : Nat → List Char → List Char
  | 0, s => s
  | _ + 1, [] => []
  | n + 1, c :: cs =>
    match matchTagAt (c :: cs) with
    | some rest => ' ' :: stripTagsL n rest
    | none => c :: stripTagsL n cs

/-- Case-name cleanup applied to `h1.get_text().strip()` (lines 59-68):
strip the status suffix, replace bracketed `[OPINION]`/`[ORDER]` tags by a
space, and strip surrounding whitespace. -/
def cleanCaseName (case_text : String) : String :=
  let case_name := stripStatusSuffixL case_text.data
  pyStrip ⟨stripTagsL (case_name.length + 1) case_name⟩

/-- Rest of `l` after the first (case-sensitive) occurrence of `pat`. -/
def afterSubL (pat : List Char) : List Char → Option (List Char)
  | [] => if pat = [] then some [] else none
  | c :: cs =>
    if startsWithL pat (c :: cs) then some ((c :: cs).drop pat.length)
    else afterSubL pat cs

/-- Modelled stdlib boundary: `urllib.parse.urljoin(base, href)` for the
href shapes that occur here — absolute URLs are returned unchanged,
root-relative hrefs are joined to the base's origin, other relative hrefs
to the base's directory. -/
def urljoinModel (base href : String) : String :=
  if strHasSub href "://" then href
  else
    match afterSubL "://".data base.data with
    | none => href
    | some rest =>
      let origin := ⟨base.data.take (base.data.length - (rest.dropWhile (fun c => c != '/')).length)⟩
      if startsWithL "/".data href.data then origin ++ href
      else
        let dir := ⟨base.data.reverse.dropWhile (fun c => c != '/') |>.reverse⟩
        dir ++ href

/-- `extract_metadata_from_landing_page` (lines 12-80) over the page
model: first anchor in the opinions-orders directory ending in `.pdf`,
else any anchor ending in `.pdf`; case name from the first `h1`;
precedential flag from the page text. -/
def extract_metadata_from_landing_page (fetchPage : String → Option Page)
    (landing_url : String) : Option String × Bool × Option String :=
  match fetchPage landing_url with
  | none => (none, false, none)
  | some soup =>
    let pdf_url : Option String :=
      match soup.anchors.find? fun href =>
          strHasSub href "/opinions-orders/" && strEndsWith href ".pdf" with
      | some href => some (urljoinModel landing_url href)
      | none => none
    let pdf_url : Option String :=
      if optStrTruthy pdf_url then pdf_url
      else
        match soup.anchors.find? fun href => strEndsWith href ".pdf" with
        | some href => some (urljoinModel landing_url href)
        | none => none
    let case_name := soup.h1.map fun t => cleanCaseName (pyStrip t)
    (pdf_url, precedentialFromText soup.text, case_name)

/-- `urlparse(u).path`: the path component after scheme and authority. -/
def urlPathOf (u : String) : String :=
  match afterSubL "://".data u.data with
  | none => ⟨u.data.takeWhile fun c => c != '?' && c != '#'⟩
  | some r => ⟨(r.dropWhile fun c => c != '/').takeWhile fun c => c != '?' && c != '#'⟩

/-- `Path(p).name`: the final path segment. -/
def baseName (p : String) : String :=
  ⟨(p.data.reverse.takeWhile fun c => c != '/').reverse⟩

/-- `Path(p).stem`: the final segment without its extension. -/
def stemOf (p : String) : String :=
  let n := (baseName p).data
  if hasSubL ['.'] n then ⟨((n.reverse.dropWhile fun c => c != '.').drop 1).reverse⟩
  else ⟨n⟩

/-- `download_pdf` (lines 99-129): a failed GET (modelled by
`fetchPdf pdf_url = false`) is caught and yields `None` with no write;
otherwise the bytes are written under the URL's final path segment and
that path is returned.  Second component: paths written. -/
def download_pdf (fetchPdf : String → Bool) (pdf_url output_dir : String) :
    Option String × List String :=
  if fetchPdf pdf_url then
    let filename := baseName (urlPathOf pdf_url)
    let output_path := output_dir ++ "/" ++ filename
    (some output_path, [output_path])
  else (none, [])

/-! ## Python dynamic values and tuple unpacking

`process_uscourts_link` returns a Python tuple; the orchestrator's call
site unpacks it into a fixed number of names.  Tuples are embedded as
`List PyVal`, and unpacking as a partial operation that raises
`ValueError` on arity mismatch — exactly CPython's behaviour. -/

/-- Python runtime errors that the embedded code can raise. -/
inductive PyErr where
  | valueError
  | attributeError
deriving DecidableEq, Repr

/-- Dynamically typed values flowing through the embedded tuples. -/
inductive PyVal where
  | vnone
  | vbool (b : Bool)
  | vstr (s : String)
deriving DecidableEq, Repr

/-- Python truthiness of a `PyVal`. -/
def truthyVal : PyVal → Bool
  | .vnone => false
  | .vbool b => b
  | .vstr s => s != ""

/-- View a `PyVal` as `str`-or-`None`. -/
def valToOptStr : PyVal → Option String
  | .vstr s => some s
  | _ => none

/-- View a `PyVal` as a `str` (defaulting to `""`). -/
def valToStr : PyVal → String
  | .vstr s => s
  | _ => ""

/-- Embed `str`-or-`None` as a `PyVal`. -/
def optStrToVal : Option String → PyVal
  | none => .vnone
  | some s => .vstr s

/-- `a, b, c, d, e, f = t`: unpacking a tuple into six names raises
`ValueError` unless the tuple has exactly six items. -/
def unpack6 (t : List PyVal) :
    Except PyErr (PyVal × PyVal × PyVal × PyVal × PyVal × PyVal) :=
  match t with
  | [a, b, c, d, e, f] => .ok (a, b, c, d, e, f)
  | _ => .error .valueError

/-- `process_uscourts_link` (uscourts_scraper.py lines 132-158): resolve
the landing page; if no PDF URL was found return the 4-tuple
`(None, False, None, None)`, otherwise download and return the 4-tuple
`(pdf_path, is_precedential, case_name, pdf_url)`.  Second component of
the result: paths written by the download. -/
def process_uscourts_link (fetchPage : String → Option Page)
    (fetchPdf : String → Bool) (landing_url output_dir : String) :
    List PyVal × List String :=
  let m := extract_metadata_from_landing_page fetchPage landing_url
  let pdf_url := m.1
  let is_precedential := m.2.1
  let case_name := m.2.2
  if optStrTruthy pdf_url = false then
    ([.vnone, .vbool false, .vnone, .vnone], [])
  else
    let u := pdf_url.getD ""
    let d := download_pdf fetchPdf u output_dir
    ([optStrToVal d.1, .vbool is_precedential, optStrToVal case_name, .vstr u], d.2)

/-! ## JSON values and the `json.loads` boundary (`openai_summarizer.py`)

`_extract_structured_info` hands the model's response to `json.loads` and
then calls `.get` on the result.  JSON values are embedded as `PyJson`;
`json_loads` is a recursive-descent reader covering the JSON subset
exercised by the theorems (literals, integers, strings with the common
escapes, arrays, objects).  Fractional/exponent numbers, `\u` escapes and
duplicate-key subtleties are outside the modelled subset and unused. -/

/-- The opening-brace and closing-brace characters (by code point). -/
def lbrace : Char := Char.ofNat 123

/-- Closing brace. -/
def rbrace : Char := Char.ofNat 125

/-- JSON whitespace. -/
def isJsonWs (c : Char) : Bool :=
  c == ' ' || c == '\t' || c == '\n' || c == '\r'

/-- Decimal digit. -/
def isDigitCh (c : Char) : Bool := '0' ≤ c && c ≤ '9'

/-- Numeric value of a digit string. -/
def natOfDigits (l : List Char) : Nat :=
  l.foldl (fun a c => 10 * a + (c.toNat - 48)) 0

/-- Python values produced by `json.loads`. -/
inductive PyJson where
  | null
  | jbool (b : Bool)
  | jnum (n : Int)
  | jstr (s : String)
  | jarr (xs : List PyJson)
  | jobj (kvs : List (String × PyJson))

/-- Python truthiness (`bool(...)`) of a decoded JSON value. -/
def pyTruthy : PyJson → Bool
  | .null => false
  | .jbool b => b
  | .jnum n => n != 0
  | .jstr s => s != ""
  | .jarr xs => !xs.isEmpty
  | .jobj kvs => !kvs.isEmpty

/-- JSON string body reader (after the opening quote). -/
def jString : Nat → List Char → List Char → Except Unit (String × List Char)
  | 0, _, _ => .error ()
  | _ + 1, [], _ => .error ()
  | n + 1, c :: cs, acc =>
    if c == '"' then .ok (⟨acc.reverse⟩, cs)
    else if c == '\\' then
      match cs with
      | e :: cs2 =>
        if e == '"' then jString n cs2 ('"' :: acc)
        else if e == '\\' then jString n cs2 ('\\' :: acc)
        else if e == '/' then jString n cs2 ('/' :: acc)
        else if e == 'n' then jString n cs2 ('\n' :: acc)
        else if e == 't' then jString n cs2 ('\t' :: acc)
        else if e == 'r' then jString n cs2 ('\r' :: acc)
        else if e == 'b' then jString n cs2 (Char.ofNat 8 :: acc)
        else if e == 'f' then jString n cs2 (Char.ofNat 12 :: acc)
        else .error ()
      | [] => .error ()
    else jString n cs (c :: acc)

mutual

/-- One JSON value (leading whitespace allowed). -/
def jParse : Nat → List Char → Except Unit (PyJson × List Char)
  | 0, _ => .error ()
  | n + 1, s =>
    match s.dropWhile isJsonWs with
    | [] => .error ()
    | c :: cs =>
      if c == 'n' then
        if startsWithL "ull".data cs then .ok (.null, cs.drop 3) else .error ()
      else if c == 't' then
        if startsWithL "rue".data cs then .ok (.jbool true, cs.drop 3) else .error ()
      else if c == 'f' then
        if startsWithL "alse".data cs then .ok (.jbool false, cs.drop 4) else .error ()
      else if c == '"' then
        match jString (cs.length + 1) cs [] with
        | .ok (str, r) => .ok (.jstr str, r)
        | .error e => .error e
      else if c == '[' then
        match cs.dropWhile isJsonWs with
        | ']' :: r => .ok (.jarr [], r)
        | s2 =>
          match jParseElems n s2 with
          | .ok (xs, r) => .ok (.jarr xs, r)
          | .error e => .error e
      else if c == lbrace then
        match cs.dropWhile isJsonWs with
        | d :: r =>
          if d == rbrace then .ok (.jobj [], r)
          else
            match jParseMembers n (d :: r) with
            | .ok (kvs, rr) => .ok (.jobj kvs, rr)
            | .error e => .error e
        | [] => .error ()
      else if c == '-' then
        match cs.span isDigitCh with
        | ([], _) => .error ()
        | (ds, r) => .ok (.jnum (-(natOfDigits ds : Int)), r)
      else if isDigitCh c then
        match (c :: cs).span isDigitCh with
        | (ds, r) => .ok (.jnum (natOfDigits ds : Int), r)
      else .error ()

/-- Comma-separated array elements, consuming the closing bracket. -/
def jParseElems : Nat → List Char → Except Unit (List PyJson × List Char)
  | 0, _ => .error ()
  | n + 1, s =>
    match jParse n s with
    | .error e => .error e
    | .ok (v, r) =>
      match r.dropWhile isJsonWs with
      | ',' :: rr =>
        match jParseElems n rr with
        | .ok (xs, rend) => .ok (v :: xs, rend)
        | .error e => .error e
      | ']' :: rr => .ok ([v], rr)
      | _ => .error ()

/-- Comma-separated object members, consuming the closing brace. -/
def jParseMembers : Nat → List Char → Except Unit (List (String × PyJson) × List Char)
  | 0, _ => .error ()
  | n + 1, s =>
    match s.dropWhile isJsonWs with
    | '"' :: cs =>
      match jString (cs.length + 1) cs [] with
      | .error e => .error e
      | .ok (k, r) =>
        match r.dropWhile isJsonWs with
        | ':' :: rv =>
          match jParse n rv with
          | .error e => .error e
          | .ok (v, rr) =>
            match rr.dropWhile isJsonWs with
            | ',' :: rn =>
              match jParseMembers n rn with
              | .ok (kvs, rend) => .ok ((k, v) :: kvs, rend)
              | .error e => .error e
            | d :: rn => if d == rbrace then .ok ([(k, v)], rn) else .error ()
            | [] => .error ()
        | _ => .error ()
    | _ => .error ()

end

/-- `json.loads`: one JSON document with nothing but whitespace around it. -/
def json_loads (s : String) : Except Unit PyJson :=
  match jParse (2 * s.data.length + 2) s.data with
  | .ok (v, rest) => if rest.dropWhile isJsonWs = [] then .ok v else .error ()
  | .error e => .error e

/-- `str.find(ch)`: index of the first occurrence, `-1` if absent. -/
def pyFindChar (s : String) (c : Char) : Int :=
  match s.data.findIdx? (· == c) with
  | some i => (i : Int)
  | none => -1

/-- `str.rfind(ch)`: index of the last occurrence, `-1` if absent. -/
def pyRfindChar (s : String) (c : Char) : Int :=
  match s.data.reverse.findIdx? (· == c) with
  | some i => (s.data.length : Int) - 1 - (i : Int)
  | none => -1

/-- `dict.get(k, default)` on a decoded JSON object; later duplicate keys
overwrite earlier ones, as in `json.loads`. -/
def dictGet (kvs : List (String × PyJson)) (k : String) (dflt : PyJson) : PyJson :=
  match kvs.reverse.find? fun p => p.1 == k with
  | some p => p.2
  | none => dflt

/-- The structured-classification record built by
`_extract_structured_info`.  The two flags pass through `bool(...)`; all
other fields are taken verbatim from the decoded response. -/
structure StructuredInfo where
  is_rule_42b_dismissal : Bool
  is_patent_case : Bool
  patent_law_issues : PyJson
  panel_judges : PyJson
  author_judge : PyJson
  case_summary : PyJson
  major_holdings : PyJson

/-- Defaults returned when the response fails to decode as JSON
(openai_summarizer.py lines 254-266). -/
def defaultStructuredInfo : StructuredInfo :=
  { is_rule_42b_dismissal := false
    is_patent_case := false
    patent_law_issues := .jarr []
    panel_judges := .jarr []
    author_judge := .null
    case_summary := .jstr ""
    major_holdings := .jstr "" }

/-- Field extraction of `_extract_structured_info` on a decoded dict
(lines 244-253): `data.get` with per-field defaults, `bool()` on the two
flags, and no validation of the list-valued fields. -/
def structuredOf (kvs : List (String × PyJson)) : StructuredInfo :=
  { is_rule_42b_dismissal := pyTruthy (dictGet kvs "is_rule_42b_dismissal" (.jbool false))
    is_patent_case := pyTruthy (dictGet kvs "is_patent_case" (.jbool false))
    patent_law_issues := dictGet kvs "patent_law_issues" (.jarr [])
    panel_judges := dictGet kvs "panel_judges" (.jarr [])
    author_judge := dictGet kvs "author_judge" .null
    case_summary := dictGet kvs "case_summary" (.jstr "")
    major_holdings := dictGet kvs "major_holdings" (.jstr "") }

/-- JSON-extraction step of `_extract_structured_info` (lines 234-242):
slice from the first opening brace to the last closing brace when that
window is non-empty, else decode the whole response. -/
def parseStructuredJson (response : String) : Except Unit PyJson :=
  let json_start := pyFindChar response lbrace
  let json_end := pyRfindChar response rbrace + 1
  if 0 ≤ json_start ∧ json_start < json_end then
    json_loads ⟨(response.data.drop json_start.toNat).take (json_end - json_start).toNat⟩
  else json_loads response

/-- Response handling of `_extract_structured_info` (lines 232-266): a
JSON decoding failure is caught (`except (json.JSONDecodeError,
ValueError)`) and yields the defaults; a successfully decoded dict is read
with `data.get`; any other successfully decoded value reaches `data.get`
and raises `AttributeError`, which is not caught. -/
def _extract_structured_info_parse (response : String) : Except PyErr StructuredInfo :=
  match parseStructuredJson response with
  | .error _ => .ok defaultStructuredInfo
  | .ok (.jobj kvs) => .ok (structuredOf kvs)
  | .ok _ => .error .attributeError

/-! ## `summarize_text` (`openai_summarizer.py` lines 269-312)

The hosted model is an external collaborator; it is modelled as an oracle
`LLM` mapping (system prompt, user text) to a response string, and every
`_call_model` invocation is recorded as a `ModelCall`.  The prompt texts
are abridged stand-ins — the spec places prompt wording out of scope —
but the sample lengths (3000 and 15000 characters) are the source's. -/

/-- One chat-completion request issued through `_call_model`. -/
structure ModelCall where
  system : String
  user : String
deriving DecidableEq, Repr

/-- The hosted language model as a response oracle. -/
structure LLM where
  respond : String → String → String

/-- Stand-in for the metadata-extraction system prompt (wording out of
scope per the spec). -/
def metadata_prompt : String := "metadata extraction request"

/-- Stand-in for the structured-classification system prompt (wording out
of scope per the spec). -/
def structured_prompt : String := "structured classification request"

/-- Rest of a line after its first colon, modelling
`line.split(":", 1)[1]` for lines known to contain a colon. -/
def afterFirstColon (l : List Char) : List Char :=
  (l.dropWhile fun c => c != ':').drop 1

/-- Split on newline characters, as `str.split("\n")`. -/
def splitNl : List Char → List Char → List (List Char)
  | [], acc => [acc.reverse]
  | c :: cs, acc => if c == '\n' then acc.reverse :: splitNl cs [] else splitNl cs (c :: acc)

/-- Parsing of the metadata response (lines 92-106): scan the lines of the
stripped response; a `DATE:`/`CASE:` line sets the corresponding value
unless the payload is `UNKNOWN`; later lines overwrite earlier ones. -/
def parseMetadataResponse (response : String) : Option String × Option String :=
  (splitNl (pyStrip response).data []).foldl
    (fun acc line =>
      if startsWithL "DATE:".data line then
        let v := pyStrip ⟨afterFirstColon line⟩
        if v != "UNKNOWN" then (some v, acc.2) else acc
      else if startsWithL "CASE:".data line then
        let v := pyStrip ⟨afterFirstColon line⟩
        if v != "UNKNOWN" then (acc.1, some v) else acc
      else acc)
    (none, none)

/-- `SummarizationResult` (lines 14-33).  `panel_judges` and
`patent_law_issues` carry the raw decoded JSON (the dataclass is
annotated `List[str]` but assigned whatever the response held); the
flags are `bool`s because `_extract_structured_info` applies `bool()`.
The dataclass has no `is_rule_36_affirmance` field. -/
structure SummarizationResult where
  combined_summary : String
  opinion_date : Option String
  case_number : Option String
  is_patent_case : Bool
  panel_judges : PyJson
  author_judge : PyJson
  case_summary : PyJson
  major_holdings : PyJson
  is_rule_42b_dismissal : Bool
  patent_law_issues : PyJson

/-- `__post_init__`: a `None` list field becomes the empty list. -/
def postInitList : PyJson → PyJson
  | .null => .jarr []
  | v => v

/-- `SummarizationResult(combined_summary="")`: dataclass defaults plus
`__post_init__` (empty summary, `None` date and case number, false flags,
empty judge and issue lists, `None` author/summary/holdings). -/
def defaultSummarizationResult : SummarizationResult :=
  { combined_summary := ""
    opinion_date := none
    case_number := none
    is_patent_case := false
    panel_judges := .jarr []
    author_judge := .null
    case_summary := .null
    major_holdings := .null
    is_rule_42b_dismissal := false
    patent_law_issues := .jarr [] }

/-- Python attribute lookup `result.is_rule_36_affirmance`
(gmail_checker.py line 645): `SummarizationResult` declares no such
field, so the lookup raises `AttributeError`. -/
def getattrRule36 (_ : SummarizationResult) : Except PyErr Bool :=
  .error .attributeError

/-- `summarize_text` (lines 269-312): blank input short-circuits to the
default result before any model call; otherwise metadata is extracted
only when not supplied by the caller, the structured-classification
response is parsed (its uncaught `AttributeError` propagates), and the
free-text summary is generated and stripped.  Second component: the model
calls made, in order. -/
def summarize_text (llm : LLM) (loadedPrompt : String) (text : String)
    (opinion_date case_number : Option String) :
    Except PyErr (SummarizationResult × List ModelCall) :=
  if pyStrip text = "" then .ok (defaultSummarizationResult, [])
  else
    let meta :=
      if opinion_date.isNone || case_number.isNone then
        let sample := strTake text 3000
        let response := llm.respond metadata_prompt sample
        let extracted := parseMetadataResponse response
        ((if opinion_date.isNone then extracted.1 else opinion_date),
         (if case_number.isNone then extracted.2 else case_number),
         [ModelCall.mk metadata_prompt sample])
      else (opinion_date, case_number, ([] : List ModelCall))
    let ssample := strTake text 15000
    let sresponse := llm.respond structured_prompt ssample
    match _extract_structured_info_parse sresponse with
    | .error e => .error e
    | .ok structured_info =>
      let combined_summary := pyStrip (llm.respond loadedPrompt text)
      .ok
        ({ combined_summary := combined_summary
           opinion_date := meta.1
           case_number := meta.2.1
           is_patent_case := structured_info.is_patent_case
           panel_judges := postInitList structured_info.panel_judges
           author_judge := structured_info.author_judge
           case_summary := structured_info.case_summary
           major_holdings := structured_info.major_holdings
           is_rule_42b_dismissal := structured_info.is_rule_42b_dismissal
           patent_law_issues := postInitList structured_info.patent_law_issues },
         meta.2.2 ++ [ModelCall.mk structured_prompt ssample,
                      ModelCall.mk loadedPrompt text])

/-! ## Digest bucketing and the orchestrator (`gmail_checker.py`)

`send_summary_email` first partitions the run's records into five
disjoint buckets (lines 302-307); the orchestrator `process_court_emails`
(lines 501-659) drives the idempotency gate, the per-email and per-link
loops, artifact writing and digest delivery.  The mail service, the
filesystem state read by the gate, and all network behaviour are
supplied by a `World`. -/

/-- `CaseSummary` dataclass (gmail_checker.py lines 194-218). -/
structure CaseSummary where
  case_name : String
  is_precedential : Bool
  summary_text : String
  opinion_date : Option String
  case_number : Option String
  pdf_url : Option String
  is_patent_case : Bool
  panel_judges : PyJson
  author_judge : PyJson
  case_summary : PyJson
  major_holdings : PyJson
  is_rule_42b_dismissal : Bool
  is_rule_36_affirmance : Bool
  patent_law_issues : PyJson

/-- Digest bucket: Rule 42(b) dismissals (line 303). -/
def rule_42b_dismissals (summaries : List CaseSummary) : List CaseSummary :=
  summaries.filter fun s => s.is_rule_42b_dismissal

/-- Digest bucket: Rule 36 affirmances (line 304). -/
def rule_36_affirmances (summaries : List CaseSummary) : List CaseSummary :=
  summaries.filter fun s => s.is_rule_36_affirmance

/-- Digest bucket: precedential patent cases (line 305). -/
def patent_precedential (summaries : List CaseSummary) : List CaseSummary :=
  summaries.filter fun s =>
    !s.is_rule_42b_dismissal && !s.is_rule_36_affirmance &&
      s.is_patent_case && s.is_precedential

/-- Digest bucket: non-precedential patent cases (line 306). -/
def patent_non_precedential (summaries : List CaseSummary) : List CaseSummary :=
  summaries.filter fun s =>
    !s.is_rule_42b_dismissal && !s.is_rule_36_affirmance &&
      s.is_patent_case && !s.is_precedential

/-- Digest bucket: non-patent cases (line 307). -/
def non_patent (summaries : List CaseSummary) : List CaseSummary :=
  summaries.filter fun s =>
    !s.is_rule_42b_dismissal && !s.is_rule_36_affirmance && !s.is_patent_case

/-- Records rendered in the SUMMARY DISPOSITIONS section of the digest
(lines 429-466): the Rule 42(b) dismissals followed by the Rule 36
affirmances. -/
def summary_dispositions (summaries : List CaseSummary) : List CaseSummary :=
  rule_42b_dismissals summaries ++ rule_36_affirmances summaries

/-- External state and collaborators of one `process_court_emails` run:
the gate's view of the summary directory, the bodies of the emails found
for the date across all senders, the landing-page fetcher, the PDF
fetcher, PDF text extraction, and the model oracle. -/
structure World where
  dateDirExists : Bool
  existingTxt : List String
  emailBodies : List String
  fetchPage : String → Option Page
  fetchPdf : String → Bool
  pdfText : String → String
  llm : LLM
  loadedPrompt : String

/-- Observable side effects of one run. -/
structure Effects where
  mkdirs : List String
  pdfWrites : List String
  summaryWrites : List (String × String)
  modelCalls : List ModelCall
  digestSent : Bool

/-- Mutable loop state of `process_court_emails`. -/
structure RunSt where
  pdf_count : Nat
  summaries : List CaseSummary
  eff : Effects

/-- `YYYY-MM-DD` to `YYYY.MM.DD` (`result.opinion_date.replace("-", ".")`). -/
def replaceDash (d : String) : String :=
  ⟨d.data.map fun c => if c == '-' then '.' else c⟩

/-- Body of the per-link loop of `process_court_emails` (lines 588-647).
The call site unpacks the 4-tuple returned by `process_uscourts_link`
into six names (line 590), so `unpack6` governs what happens next; the
remaining statements of the loop body are embedded after it. -/
def processLink (w : World) (date_summary_dir link : String) (st : RunSt) :
    Except PyErr RunSt :=
  let pr := process_uscourts_link w.fetchPage w.fetchPdf link "pdfs"
  let st := { st with eff := { st.eff with pdfWrites := st.eff.pdfWrites ++ pr.2 } }
  match unpack6 pr.1 with
  | .error e => .error e
  | .ok (pdf_path, is_precedential, case_name, pdf_url, opinion_date, case_number) =>
    if truthyVal pdf_path = false then .ok st
    else
      let text := w.pdfText (valToStr pdf_path)
      if pyStrip text = "" then .ok st
      else
        match summarize_text w.llm w.loadedPrompt text
            (valToOptStr opinion_date) (valToOptStr case_number) with
        | .error e => .error e
        | .ok (result, calls) =>
          let st := { st with eff := { st.eff with modelCalls := st.eff.modelCalls ++ calls } }
          let filename :=
            if optStrTruthy result.opinion_date && optStrTruthy result.case_number then
              replaceDash (result.opinion_date.getD "") ++ "_" ++
                result.case_number.getD "" ++ ".txt"
            else stemOf (valToStr pdf_path) ++ "-summary.txt"
          let subdir :=
            if truthyVal is_precedential then date_summary_dir ++ "/precedential"
            else date_summary_dir ++ "/non-precedential"
          let st :=
            { st with
              pdf_count := st.pdf_count + 1
              eff := { st.eff with
                       mkdirs := st.eff.mkdirs ++ [subdir]
                       summaryWrites := st.eff.summaryWrites ++
                         [(subdir ++ "/" ++ filename, result.combined_summary)] } }
          if truthyVal case_name then
            match getattrRule36 result with
            | .error e => .error e
            | .ok r36 =>
              .ok { st with summaries := st.summaries ++
                [{ case_name := valToStr case_name
                   is_precedential := truthyVal is_precedential
                   summary_text := result.combined_summary
                   opinion_date := result.opinion_date
                   case_number := result.case_number
                   pdf_url := valToOptStr pdf_url
                   is_patent_case := result.is_patent_case
                   panel_judges := result.panel_judges
                   author_judge := result.author_judge
                   case_summary := result.case_summary
                   major_holdings := result.major_holdings
                   is_rule_42b_dismissal := result.is_rule_42b_dismissal
                   is_rule_36_affirmance := r36
                   patent_law_issues := result.patent_law_issues }] }
          else .ok st

/-- Fold of `processLink` over the links of one email. -/
def processLinks (w : World) (date_summary_dir : String) :
    List String → RunSt → Except PyErr RunSt
  | [], st => .ok st
  | link :: rest, st =>
    match processLink w date_summary_dir link st with
    | .error e => .error e
    | .ok st2 => processLinks w date_summary_dir rest st2

/-- Body of the per-email loop (lines 568-585): skip empty bodies, skip
emails with no court links, else process every link. -/
def processEmail (w : World) (date_summary_dir body : String) (st : RunSt) :
    Except PyErr RunSt :=
  if body = "" then .ok st
  else
    let links := extract_links_from_text body
    if links.isEmpty then .ok st
    else processLinks w date_summary_dir links st

/-- Fold of `processEmail` over all found emails. -/
def processEmails (w : World) (date_summary_dir : String) :
    List String → RunSt → Except PyErr RunSt
  | [], st => .ok st
  | body :: rest, st =>
    match processEmail w date_summary_dir body st with
    | .error e => .error e
    | .ok st2 => processEmails w date_summary_dir rest st2

/-- `process_court_emails` (lines 501-659) with default `pdf_dir`
(`"pdfs"`) and `summary_dir` (`"summaries"`): create the PDF directory,
run the idempotency gate (no `--force`, the date directory exists and
holds at least one `.txt` artifact ⇒ return `0` doing nothing else),
otherwise create the date directory, walk the found emails and their
links, and finally send the digest when recipients are configured and at
least one record was produced.  Returns the number of PDFs processed and
the run's observable effects. -/
def process_court_emails (w : World) (date_str : String)
    (email_to : List String) (force : Bool) : Except PyErr (Nat × Effects) :=
  let eff0 : Effects :=
    { mkdirs := ["pdfs"], pdfWrites := [], summaryWrites := []
      modelCalls := [], digestSent := false }
  let date_summary_dir := "summaries/" ++ date_str
  if force = false ∧ w.dateDirExists = true ∧ w.existingTxt ≠ [] then
    .ok (0, eff0)
  else
    let eff1 := { eff0 with mkdirs := eff0.mkdirs ++ [date_summary_dir] }
    if w.emailBodies.isEmpty then .ok (0, eff1)
    else
      match processEmails w date_summary_dir w.emailBodies ⟨0, [], eff1⟩ with
      | .error e => .error e
      | .ok st =>
        let finalEff :=
          if !email_to.isEmpty && !st.summaries.isEmpty then { st.eff with digestSent := true }
          else st.eff
        .ok (st.pdf_count, finalEff)

/-! ## Concrete fixtures used by the per-claim theorems -/

/-- Length of a decoded JSON array (`len(...)`), 0 on non-arrays. -/
def pyLen : PyJson → Nat
  | .jarr xs => xs.length
  | _ => 0

/-- Modelled from the spec's invariant vocabulary: the authority (host)
component of a URL — the text between the first `://` and the next
`/`, `?` or `#`. -/
def urlHost (u : String) : String :=
  match afterSubL "://".data u.data with
  | none => ""
  | some r => ⟨r.takeWhile fun c => c != '/' && c != '?' && c != '#'⟩

/-- Modelled from the spec: "host matches the expected court domain"
(`uscourts.gov` itself or any of its subdomains, case-insensitively). -/
def isCourtHost (h : String) : Bool :=
  lowerStr h == "uscourts.gov" || strEndsWith (lowerStr h) ".uscourts.gov"

/-- Landing page of a precedential patent opinion (fixture). -/
def pageA : Page :=
  { anchors := ["/opinions-orders/23-1001.pdf"]
    h1 := some "23-1001: ALPHA CORP v. BETA LLC [OPINION], Precedential"
    text := "23-1001 ALPHA CORP v. BETA LLC Opinion Precedential" }

/-- Landing page of a non-precedential opinion (fixture). -/
def pageB : Page :=
  { anchors := ["/opinions-orders/23-2002.pdf"]
    h1 := some "23-2002: GAMMA INC v. DELTA CO [OPINION], Non-Precedential"
    text := "23-2002 GAMMA INC v. DELTA CO Opinion Non-Precedential" }

/-- Email body containing two landing links (fixture for the end-to-end
scenario). -/
def bodyC1 : String :=
  "Opinions filed: https://www.cafc.uscourts.gov/case-a and https://www.cafc.uscourts.gov/case-b"

/-- World for the end-to-end scenario: both landing pages resolve, all
PDF downloads and model calls succeed. -/
def worldC1 : World :=
  { dateDirExists := false
    existingTxt := []
    emailBodies := [bodyC1]
    fetchPage := fun u =>
      if u = "https://www.cafc.uscourts.gov/case-a" then some pageA
      else if u = "https://www.cafc.uscourts.gov/case-b" then some pageB
      else none
    fetchPdf := fun _ => true
    pdfText := fun _ => "full opinion text"
    llm := { respond := fun _ _ => "DATE: 2026-01-02" }
    loadedPrompt := "summarize the opinion" }

/-- Email body with one redirect-wrapped landing link (fixture for the
per-item failure scenario). -/
def bodyC5 : String :=
  "https://links-1.govdelivery.com/CL0/https:%2F%2Fwww.cafc.uscourts.gov%2Fcase-c"

/-- World in which the only link's landing-page fetch fails with a
network error (`requests.RequestException`). -/
def worldC5 : World :=
  { dateDirExists := false
    existingTxt := []
    emailBodies := [bodyC5]
    fetchPage := fun _ => none
    fetchPdf := fun _ => false
    pdfText := fun _ => ""
    llm := { respond := fun _ _ => "" }
    loadedPrompt := "summarize the opinion" }

/-- World whose date directory already holds an artifact (fixture for the
idempotency gate). -/
def worldC4 : World :=
  { dateDirExists := true
    existingTxt := ["2026.01.02_23-1001.txt"]
    emailBodies := [bodyC1]
    fetchPage := fun _ => none
    fetchPdf := fun _ => false
    pdfText := fun _ => ""
    llm := { respond := fun _ _ => "" }
    loadedPrompt := "summarize the opinion" }

/-- Email text fixture with one wrapped, one direct and one direct-PDF
court URL. -/
def textC2 : String :=
  "See https://links-2.govdelivery.com/CL0/https:%2F%2Fwww.cafc.uscourts.gov%2Fopinion-a and https://www.cafc.uscourts.gov/opinion-b plus https://www.cafc.uscourts.gov/od/x.pdf"

/-- Email text whose wrapped link decodes to a non-court host that merely
contains the court domain in its path. -/
def textC9 : String :=
  "https://links-1.govdelivery.com/CL0/https:%2F%2Fevil.com%2Fuscourts.gov"

/-- Simple direct-link fixture. -/
def textC9w : String := "read https://www.cafc.uscourts.gov/page-one today"

/-- Structured-classification response carrying six issue tags (fixture:
a response the model could return in violation of its prompt contract). -/
def respC8 : String :=
  "\x7b\"is_patent_case\": true, \"patent_law_issues\": [\"issue one\", \"issue two\", \"issue three\", \"issue four\", \"issue five\", \"issue six\"]\x7d"

/-- Contract-compliant structured-classification response (fixture). -/
def respC8w : String :=
  "\x7b\"patent_law_issues\": [\"claim construction\"]\x7d"

/-- CaseSummary fixture: a Rule 42(b) dismissal flagged as a patent case. -/
def recC6 : CaseSummary :=
  { case_name := "EPSILON v. ZETA"
    is_precedential := true
    summary_text := ""
    opinion_date := none
    case_number := none
    pdf_url := none
    is_patent_case := true
    panel_judges := .jarr []
    author_judge := .null
    case_summary := .null
    major_holdings := .null
    is_rule_42b_dismissal := true
    is_rule_36_affirmance := false
    patent_law_issues := .jarr [] }

/-! ## Supporting lemmas -/

theorem startsWithL_iff (pat l : List Char) :
    startsWithL pat l = true ↔ ∃ t, l = pat ++ t := by
  induction pat generalizing l with
  | nil => simp [startsWithL]
  | cons p ps ih =>
    cases l with
    | nil => simp [startsWithL]
    | cons c cs =>
      simp only [startsWithL, Bool.and_eq_true, beq_iff_eq, ih]
      constructor
      · rintro ⟨rfl, t, rfl⟩; exact ⟨t, rfl⟩
      · rintro ⟨t, h⟩
        injection h with h1 h2
        exact ⟨h1.symm, t, h2⟩

theorem hasSubL_iff (pat l : List Char) :
    hasSubL pat l = true ↔ ∃ a b, l = a ++ pat ++ b := by
  induction l with
  | nil =>
    simp only [hasSubL, startsWithL_iff]
    constructor
    · rintro ⟨t, h⟩
      exact ⟨[], t, by simpa using h⟩
    · rintro ⟨a, b, h⟩
      have h' : a = [] ∧ pat = [] ∧ b = [] := by
        have := h.symm
        simpa [List.append_eq_nil] using this
      exact ⟨b, by simp [h'.1, h'.2.1, h'.2.2]⟩
  | cons c cs ih =>
    simp only [hasSubL, Bool.or_eq_true, startsWithL_iff, ih]
    constructor
    · rintro (⟨t, h⟩ | ⟨a, b, h⟩)
      · exact ⟨[], t, by simp [h]⟩
      · exact ⟨c :: a, b, by simp [h]⟩
    · rintro ⟨a, b, h⟩
      cases a with
      | nil => exact Or.inl ⟨b, by simpa using h⟩
      | cons a0 as =>
        injection h with h1 h2
        exact Or.inr ⟨as, b, h2⟩

theorem strHasSub_iff (hay needle : String) :
    strHasSub hay needle = true ↔ SubStr needle hay := by
  simp [strHasSub, SubStr, hasSubL_iff]

theorem dedupAux_mem (seen l : List String) (u : String) :
    u ∈ dedupAux seen l ↔ u ∈ l ∧ u ∉ seen := by
  induction l generalizing seen with
  | nil => simp [dedupAux]
  | cons x xs ih =>
    simp only [dedupAux]
    by_cases hx : x ∈ seen
    · rw [if_pos hx, ih]
      constructor
      · rintro ⟨h1, h2⟩; exact ⟨List.mem_cons_of_mem _ h1, h2⟩
      · rintro ⟨h1, h2⟩
        rcases List.mem_cons.mp h1 with rfl | h1
        · exact absurd hx h2
        · exact ⟨h1, h2⟩
    · rw [if_neg hx]
      constructor
      · intro hmem
        rcases List.mem_cons.mp hmem with rfl | hmem
        · exact ⟨List.mem_cons_self _ _, hx⟩
        · rcases (ih (x :: seen)).mp hmem with ⟨h1, h2⟩
          exact ⟨List.mem_cons_of_mem _ h1,
            fun hc => h2 (List.mem_cons_of_mem _ hc)⟩
      · rintro ⟨h1, h2⟩
        rcases List.mem_cons.mp h1 with rfl | h1
        · exact List.mem_cons_self _ _
        · by_cases hux : u = x
          · exact hux ▸ List.mem_cons_self _ _
          · refine List.mem_cons_of_mem _ ((ih (x :: seen)).mpr ⟨h1, ?_⟩)
            intro hc
            rcases List.mem_cons.mp hc with h | h
            · exact hux h
            · exact h2 h

theorem dedupAux_nodup (seen l : List String) : (dedupAux seen l).Nodup := by
  induction l generalizing seen with
  | nil => simp [dedupAux]
  | cons x xs ih =>
    simp only [dedupAux]
    by_cases hx : x ∈ seen
    · simpa [if_pos hx] using ih seen
    · simp only [if_neg hx, List.nodup_cons]
      refine ⟨fun hc => ?_, ih (x :: seen)⟩
      exact ((dedupAux_mem _ _ _).mp hc).2 (List.mem_cons_self _ _)

theorem dedupFirst_mem (l : List String) (u : String) :
    u ∈ dedupFirst l ↔ u ∈ l := by
  simp [dedupFirst, dedupAux_mem]

theorem dedupFirst_nodup (l : List String) : (dedupFirst l).Nodup :=
  dedupAux_nodup [] l

theorem matchLitCI_lower (lit : List Char) :
    ∀ s o r, matchLitCI lit s = some (o, r) → o.map Char.toLower = lit := by
  induction lit with
  | nil =>
    intro s o r h
    simp only [matchLitCI, Option.some.injEq, Prod.mk.injEq] at h
    simp [← h.1]
  | cons l ls ih =>
    intro s o r h
    cases s with
    | nil => simp [matchLitCI] at h
    | cons c cs =>
      simp only [matchLitCI] at h
      by_cases hc : c.toLower == l
      · rw [if_pos hc] at h
        cases hm : matchLitCI ls cs with
        | none => rw [hm] at h; cases h
        | some pr =>
          rw [hm] at h
          obtain ⟨o', r'⟩ := pr
          simp only [Option.some.injEq, Prod.mk.injEq] at h
          rw [← h.1]
          simp only [List.map_cons]
          rw [beq_iff_eq.mp hc, ih cs o' r' hm]
      · rw [if_neg hc] at h; cases h

theorem matchHostTail_parts (s t r : List Char)
    (h : matchHostTail s = some (t, r)) :
    ∃ name dotc sl, t = name ++ dotc ++ sl ∧
      dotc.map Char.toLower = ".uscourts.gov".data := by
  unfold matchHostTail at h
  rw [Option.bind_eq_some] at h
  obtain ⟨nr, _, h⟩ := h
  rw [Option.bind_eq_some] at h
  obtain ⟨dr, hdr, h⟩ := h
  rw [Option.bind_eq_some] at h
  obtain ⟨sr, _, h⟩ := h
  simp only [Option.some.injEq, Prod.mk.injEq] at h
  exact ⟨nr.1, dr.1, sr.1, h.1.symm, matchLitCI_lower _ _ dr.1 dr.2 hdr⟩

theorem matchHostPart_parts (s host r : List Char)
    (h : matchHostPart s = some (host, r)) :
    ∃ pre dotc sl, host = pre ++ dotc ++ sl ∧
      dotc.map Char.toLower = ".uscourts.gov".data := by
  unfold matchHostPart at h
  split at h
  · rename_i wr _
    split at h
    · rename_i tr hht
      simp only [Option.some.injEq, Prod.mk.injEq] at h
      obtain ⟨name, dotc, sl, ht, hl⟩ := matchHostTail_parts _ tr.1 tr.2 hht
      refine ⟨wr.1 ++ name, dotc, sl, ?_, hl⟩
      rw [← h.1, ht]
      simp [List.append_assoc]
    · obtain ⟨name, dotc, sl, ht, hl⟩ := matchHostTail_parts _ _ _ h
      exact ⟨name, dotc, sl, ht, hl⟩
  · obtain ⟨name, dotc, sl, ht, hl⟩ := matchHostTail_parts _ _ _ h
    exact ⟨name, dotc, sl, ht, hl⟩

theorem matchDirectAt_sub (s m r : List Char)
    (h : matchDirectAt s = some (m, r)) :
    hasSubL "uscourts.gov".data (m.map Char.toLower) = true := by
  unfold matchDirectAt at h
  rw [Option.bind_eq_some] at h
  obtain ⟨hr, _, h⟩ := h
  rw [Option.bind_eq_some] at h
  obtain ⟨mr, _, h⟩ := h
  rw [Option.bind_eq_some] at h
  obtain ⟨pr, hpr, h⟩ := h
  simp only [Option.some.injEq, Prod.mk.injEq] at h
  obtain ⟨pre, dotc, sl, hhost, hdot⟩ := matchHostPart_parts _ pr.1 pr.2 hpr
  rw [hasSubL_iff]
  have hdot' : dotc.map Char.toLower = '.' :: "uscourts.gov".data := by
    rw [hdot]
  refine ⟨(hr.1 ++ mr.1 ++ pre).map Char.toLower ++ ['.'],
    (sl ++ (pr.2.span allowedDirCh).1).map Char.toLower, ?_⟩
  rw [← h.1, hhost]
  simp only [List.map_append, hdot', List.append_assoc, List.cons_append,
    List.nil_append, List.singleton_append]

theorem directScanAux_sub (fuel : Nat) :
    ∀ (s : List Char) (u : String), u ∈ directScanAux fuel s →
      hasSubL "uscourts.gov".data (u.data.map Char.toLower) = true := by
  induction fuel with
  | zero => intro s u h; simp [directScanAux] at h
  | succ n ih =>
    intro s u h
    cases s with
    | nil => simp [directScanAux] at h
    | cons c cs =>
      simp only [directScanAux] at h
      cases hm : matchDirectAt (c :: cs) with
      | none => rw [hm] at h; exact ih cs u h
      | some pr =>
        rw [hm] at h
        obtain ⟨m, rest⟩ := pr
        rcases List.mem_cons.mp h with rfl | h2
        · exact matchDirectAt_sub _ _ _ hm
        · exact ih rest u h2

theorem pyStrip_empty_of_ws (text : String)
    (h : ∀ c ∈ text.data, isPyWs c = true) : pyStrip text = "" := by
  have h1 : text.data.dropWhile isPyWs = [] := by
    rw [List.dropWhile_eq_nil_iff]
    exact h
  simp [pyStrip, h1]

/-! ## Claim theorems -/

/-- C2: for every email body, `extract_links_from_text` returns a
duplicate-free list whose members are exactly the union of the decoded
redirect-wrapped court URLs and the directly embedded court-domain URLs,
with every URL ending in `.pdf` excluded. -/
theorem C2_dedup_union_excludes_pdf (text : String) (ws ds : List String)
    (hw : wrappedCourtUrls text = ws) (hd : directScan text = ds) :
    (extract_links_from_text text).Nodup ∧
      ∀ u, u ∈ extract_links_from_text text ↔
        ((u ∈ ws ∨ u ∈ ds) ∧ strEndsWith u ".pdf" = false) := by
  subst hw
  subst hd
  constructor
  · exact List.Nodup.filter _ (dedupFirst_nodup _)
  · intro u
    simp only [extract_links_from_text]
    rw [List.mem_filter, dedupFirst_mem, List.mem_append]
    constructor
    · rintro ⟨h1, h2⟩
      exact ⟨h1, by simpa using h2⟩
    · rintro ⟨h1, h2⟩
      exact ⟨h1, by simpa using h2⟩

/-- C2 witness: on a concrete body with one wrapped link, one direct link
and one direct PDF link, the hypotheses hold by evaluation and the
conclusion follows from the theorem. -/
theorem C2_dedup_union_excludes_pdf_witness :
    wrappedCourtUrls textC2 = ["https://www.cafc.uscourts.gov/opinion-a"] ∧
    directScan textC2 = ["https://www.cafc.uscourts.gov/opinion-b",
      "https://www.cafc.uscourts.gov/od/x.pdf"] ∧
    ((extract_links_from_text textC2).Nodup ∧
      ∀ u, u ∈ extract_links_from_text textC2 ↔
        ((u ∈ ["https://www.cafc.uscourts.gov/opinion-a"] ∨
          u ∈ ["https://www.cafc.uscourts.gov/opinion-b",
            "https://www.cafc.uscourts.gov/od/x.pdf"]) ∧
          strEndsWith u ".pdf" = false)) :=
  ⟨rfl, rfl, C2_dedup_union_excludes_pdf textC2 _ _ rfl rfl⟩

/-- C3: the precedential flag of `extract_metadata_from_landing_page` is
`precedentialFromText` of the page's full text; that flag is true iff the
text contains "Precedential" and contains neither "Non-Precedential" nor
"Nonprecedential"; in particular any text containing "Non-Precedential"
yields a false flag. -/
theorem C3_precedential_flag_iff :
    (∀ (fetchPage : String → Option Page) (url : String) (page : Page),
        fetchPage url = some page →
        (extract_metadata_from_landing_page fetchPage url).2.1 =
          precedentialFromText page.text) ∧
    (∀ page_text : String,
        precedentialFromText page_text = true ↔
          (SubStr "Precedential" page_text ∧
            ¬ SubStr "Non-Precedential" page_text ∧
            ¬ SubStr "Nonprecedential" page_text)) ∧
    (∀ page_text : String, SubStr "Non-Precedential" page_text →
        precedentialFromText page_text = false) := by
  refine ⟨?_, ?_, ?_⟩
  · intro fetchPage url page h
    simp only [extract_metadata_from_landing_page, h]
  · intro pt
    have hsplit : precedentialFromText pt =
        (strHasSub pt "Precedential" && !strHasSub pt "Non-Precedential" &&
          !strHasSub pt "Nonprecedential") := by
      unfold precedentialFromText
      cases strHasSub pt "Precedential" <;>
        cases strHasSub pt "Non-Precedential" <;>
          cases strHasSub pt "Nonprecedential" <;> rfl
    rw [hsplit]
    simp only [Bool.and_eq_true, Bool.not_eq_true', Bool.eq_false_iff,
      strHasSub_iff, and_assoc, ne_eq]
  · intro pt hB
    have hB' : strHasSub pt "Non-Precedential" = true := (strHasSub_iff _ _).mpr hB
    unfold precedentialFromText
    rw [hB']
    simp

/-- C3 witness: a concrete page text containing "Non-Precedential"
resolves to a false flag via the theorem, even though it contains
"Precedential" as a substring. -/
theorem C3_precedential_flag_iff_witness :
    precedentialFromText "Status: Non-Precedential Opinion" = false ∧
    SubStr "Precedential" "Status: Non-Precedential Opinion" ∧
    precedentialFromText "Status: Precedential Opinion" = true :=
  ⟨C3_precedential_flag_iff.2.2 "Status: Non-Precedential Opinion"
      ((strHasSub_iff _ _).mp (by decide)),
    (strHasSub_iff _ _).mp (by decide), by decide⟩

/-- C6: every record flagged as a Rule 42(b) dismissal lands in the
Rule 42(b) bucket (hence in the summary-dispositions section) and in none
of the patent-precedential, patent-non-precedential or non-patent
buckets, regardless of its other flags. -/
theorem C6_rule42b_routing (l : List CaseSummary) (s : CaseSummary)
    (hmem : s ∈ l) (h42 : s.is_rule_42b_dismissal = true) :
    s ∈ rule_42b_dismissals l ∧ s ∈ summary_dispositions l ∧
      s ∉ patent_precedential l ∧ s ∉ patent_non_precedential l ∧
      s ∉ non_patent l := by
  refine ⟨?_, ?_, ?_, ?_, ?_⟩
  · rw [rule_42b_dismissals, List.mem_filter]
    exact ⟨hmem, h42⟩
  · rw [summary_dispositions, List.mem_append]
    exact Or.inl (by rw [rule_42b_dismissals, List.mem_filter]; exact ⟨hmem, h42⟩)
  · intro hc
    rw [patent_precedential, List.mem_filter] at hc
    simp [h42] at hc
  · intro hc
    rw [patent_non_precedential, List.mem_filter] at hc
    simp [h42] at hc
  · intro hc
    rw [non_patent, List.mem_filter] at hc
    simp [h42] at hc

/-- C6 witness: a Rule 42(b) dismissal with `is_patent_case = true` is
routed to the dismissal bucket only. -/
theorem C6_rule42b_routing_witness :
    recC6.is_rule_42b_dismissal = true ∧ recC6.is_patent_case = true ∧
    (recC6 ∈ rule_42b_dismissals [recC6] ∧
      recC6 ∈ summary_dispositions [recC6] ∧
      recC6 ∉ patent_precedential [recC6] ∧
      recC6 ∉ patent_non_precedential [recC6] ∧
      recC6 ∉ non_patent [recC6]) :=
  ⟨rfl, rfl,
    C6_rule42b_routing [recC6] recC6 (List.mem_singleton.mpr rfl) rfl⟩

/-- C9 counterexample: the claim says every returned URL has a host in
`uscourts.gov`, but the wrapped-link acceptance check is a substring test
on the whole decoded URL, so a GovDelivery target with host `evil.com`
and the court domain in its path is returned. -/
theorem C9_counterexample_foreign_host :
    "https://evil.com/uscourts.gov" ∈ extract_links_from_text textC9 ∧
    urlHost "https://evil.com/uscourts.gov" = "evil.com" ∧
    isCourtHost "evil.com" = false := by
  refine ⟨?_, rfl, rfl⟩
  have h : extract_links_from_text textC9 = ["https://evil.com/uscourts.gov"] := rfl
  rw [h]
  exact List.mem_singleton.mpr rfl

/-- C9 amended: every URL returned by `extract_links_from_text` contains
`uscourts.gov` case-insensitively and never ends in `.pdf`; the
host-in-domain (and scheme) guarantee of the original claim does not hold
for redirect-wrapped targets, whose acceptance check is substring-based. -/
theorem C9_amended_substring_invariant (text u : String)
    (hmem : u ∈ extract_links_from_text text) :
    strHasSub (lowerStr u) "uscourts.gov" = true ∧
      strEndsWith u ".pdf" = false := by
  simp only [extract_links_from_text] at hmem
  rw [List.mem_filter] at hmem
  obtain ⟨h1, h2⟩ := hmem
  refine ⟨?_, by simpa using h2⟩
  rw [dedupFirst_mem, List.mem_append] at h1
  rcases h1 with h1 | h1
  · simp only [wrappedCourtUrls] at h1
    rw [List.mem_filterMap] at h1
    obtain ⟨enc, _, hif⟩ := h1
    by_cases hg : strHasSub (lowerStr (strUnquote enc)) "uscourts.gov" = true
    · rw [if_pos hg] at hif
      injection hif with h
      rw [← h]
      exact hg
    · rw [if_neg hg] at hif
      cases hif
  · simp only [directScan] at h1
    exact directScanAux_sub _ _ _ h1

/-- C9 amended witness: a concrete direct link satisfies the amended
invariant via the theorem. -/
theorem C9_amended_substring_invariant_witness :
    "https://www.cafc.uscourts.gov/page-one" ∈ extract_links_from_text textC9w ∧
    (strHasSub (lowerStr "https://www.cafc.uscourts.gov/page-one") "uscourts.gov" = true ∧
      strEndsWith "https://www.cafc.uscourts.gov/page-one" ".pdf" = false) :=
  ⟨by decide, C9_amended_substring_invariant textC9w _ (by decide)⟩

/-- C7: the claim says any response that does not parse as the expected
JSON object yields the all-default record and never raises; the code only
catches `json.JSONDecodeError`/`ValueError`, so a response decoding to a
non-object JSON value (here `"[]"`) reaches `data.get` and raises
`AttributeError`, while a non-JSON response does yield the defaults. -/
theorem C7_nonobject_response_raises :
    _extract_structured_info_parse "[]" = .error .attributeError ∧
    _extract_structured_info_parse "the model returned prose, not data" =
      .ok defaultStructuredInfo :=
  ⟨rfl, rfl⟩

/-- C8 counterexample: a successfully parsed response carrying six issue
tags is passed through unchanged — the returned `patent_law_issues` has
six entries, violating the claimed at-most-5 bound. -/
theorem C8_counterexample_six_issues :
    (match _extract_structured_info_parse respC8 with
     | .ok r => pyLen r.patent_law_issues
     | .error _ => 0) = 6 ∧
    (match _extract_structured_info_parse respC8 with
     | .ok r => r.is_patent_case
     | .error _ => false) = true :=
  ⟨rfl, rfl⟩

/-- C8 amended: for every successfully parsed structured-classification
response, `patent_law_issues` in the returned record is exactly the
response's field value (empty array when absent), with no length or
vocabulary validation; the at-most-5 bound therefore holds only when the
response itself satisfies it. -/
theorem C8_amended_issues_passthrough (response : String)
    (kvs : List (String × PyJson))
    (h : parseStructuredJson response = .ok (.jobj kvs)) :
    _extract_structured_info_parse response = .ok (structuredOf kvs) ∧
    (structuredOf kvs).patent_law_issues =
      dictGet kvs "patent_law_issues" (.jarr []) ∧
    ∀ xs : List PyJson,
      dictGet kvs "patent_law_issues" (.jarr []) = .jarr xs →
        xs.length ≤ 5 → pyLen ((structuredOf kvs).patent_law_issues) ≤ 5 := by
  refine ⟨?_, rfl, ?_⟩
  · unfold _extract_structured_info_parse
    rw [h]
  · intro xs hxs hlen
    have hfield : (structuredOf kvs).patent_law_issues = .jarr xs := by
      rw [show (structuredOf kvs).patent_law_issues =
        dictGet kvs "patent_law_issues" (.jarr []) from rfl, hxs]
    rw [hfield]
    simpa [pyLen] using hlen

/-- C8 amended witness: a contract-compliant response with one vocabulary
tag passes through with one entry. -/
theorem C8_amended_issues_passthrough_witness :
    parseStructuredJson respC8w =
      .ok (.jobj [("patent_law_issues", .jarr [.jstr "claim construction"])]) ∧
    (_extract_structured_info_parse respC8w =
        .ok (structuredOf [("patent_law_issues", .jarr [.jstr "claim construction"])]) ∧
      (structuredOf [("patent_law_issues", .jarr [.jstr "claim construction"])]).patent_law_issues =
        dictGet [("patent_law_issues", .jarr [.jstr "claim construction"])]
          "patent_law_issues" (.jarr []) ∧
      ∀ xs : List PyJson,
        dictGet [("patent_law_issues", .jarr [.jstr "claim construction"])]
            "patent_law_issues" (.jarr []) = .jarr xs →
          xs.length ≤ 5 →
            pyLen ((structuredOf [("patent_law_issues",
              .jarr [.jstr "claim construction"])]).patent_law_issues) ≤ 5) :=
  ⟨rfl, C8_amended_issues_passthrough respC8w _ rfl⟩

/-- C10: whitespace-only (or empty) input makes `summarize_text` return
the default result — empty summary, `None` date and case number, false
flags, empty judge and issue lists — with no model call. -/
theorem C10_blank_input_short_circuits (llm : LLM) (loadedPrompt : String)
    (opinion_date case_number : Option String) (text : String)
    (h : ∀ c ∈ text.data, isPyWs c = true) :
    summarize_text llm loadedPrompt text opinion_date case_number =
      .ok (defaultSummarizationResult, []) ∧
    defaultSummarizationResult.combined_summary = "" ∧
    defaultSummarizationResult.opinion_date = none ∧
    defaultSummarizationResult.case_number = none ∧
    defaultSummarizationResult.is_patent_case = false ∧
    defaultSummarizationResult.is_rule_42b_dismissal = false ∧
    defaultSummarizationResult.panel_judges = .jarr [] ∧
    defaultSummarizationResult.patent_law_issues = .jarr [] ∧
    defaultSummarizationResult.author_judge = .null := by
  refine ⟨?_, rfl, rfl, rfl, rfl, rfl, rfl, rfl, rfl⟩
  unfold summarize_text
  rw [if_pos (pyStrip_empty_of_ws text h)]

/-- C10 witness: a concrete whitespace-only input. -/
theorem C10_blank_input_short_circuits_witness :
    (∀ c ∈ ("  \n\t " : String).data, isPyWs c = true) ∧
    summarize_text { respond := fun _ _ => "ignored" } "prompt" "  \n\t "
        none none = .ok (defaultSummarizationResult, []) :=
  ⟨by decide,
    (C10_blank_input_short_circuits { respond := fun _ _ => "ignored" }
      "prompt" none none "  \n\t " (by decide)).1⟩

/-- C4: when the date directory exists and already holds at least one
`.txt` artifact and `force` is unset, `process_court_emails` returns 0,
writes nothing, makes no model calls, and touches no summary directory
(only the unconditional `pdfs` mkdir precedes the gate); a second
invocation after a successful run therefore does zero additional work. -/
theorem C4_idempotency_gate (w : World) (date_str : String)
    (email_to : List String) (hdir : w.dateDirExists = true)
    (htxt : w.existingTxt ≠ []) :
    process_court_emails w date_str email_to false =
      .ok (0, { mkdirs := ["pdfs"], pdfWrites := [], summaryWrites := []
                modelCalls := [], digestSent := false }) := by
  simp only [process_court_emails]
  rw [if_pos ⟨by trivial, hdir, htxt⟩]

/-- C4 witness: a world with one existing artifact short-circuits. -/
theorem C4_idempotency_gate_witness :
    worldC4.dateDirExists = true ∧ worldC4.existingTxt ≠ [] ∧
    process_court_emails worldC4 "2026-01-02" [] false =
      .ok (0, { mkdirs := ["pdfs"], pdfWrites := [], summaryWrites := []
                modelCalls := [], digestSent := false }) :=
  ⟨rfl, List.cons_ne_nil _ _,
    C4_idempotency_gate worldC4 "2026-01-02" [] rfl (List.cons_ne_nil _ _)⟩

/-- C1: in the end-to-end scenario — one message with two landing links,
the first resolving to a precedential opinion and the second to a
non-precedential one, with every fetch and model call succeeding — the
claim expects two artifacts and a digest, but the run aborts with
`ValueError`: gmail_checker.py line 590 unpacks the 4-tuple returned by
`process_uscourts_link` (uscourts_scraper.py line 158) into six names, so
the first link raises and nothing is written or sent. -/
theorem C1_end_to_end_run_raises :
    process_court_emails worldC1 "2026-01-02" ["recipient@example.com"] false =
      .error .valueError ∧
    extract_links_from_text bodyC1 =
      ["https://www.cafc.uscourts.gov/case-a",
       "https://www.cafc.uscourts.gov/case-b"] ∧
    (extract_metadata_from_landing_page worldC1.fetchPage
        "https://www.cafc.uscourts.gov/case-a").2.1 = true ∧
    (extract_metadata_from_landing_page worldC1.fetchPage
        "https://www.cafc.uscourts.gov/case-b").2.1 = false ∧
    (process_uscourts_link worldC1.fetchPage worldC1.fetchPdf
        "https://www.cafc.uscourts.gov/case-a" "pdfs").1.length = 4 :=
  ⟨rfl, rfl, rfl, rfl, rfl⟩

/-- C5: the claim says a per-item failure (here: the landing-page fetch
of the only link fails with a network error) is skipped and the batch
never raises; in the code the per-link call site itself raises
`ValueError` on every link — failure or success — because the 4-tuple
returned by `process_uscourts_link` (including its `(None, False, None,
None)` failure value) cannot be unpacked into six names. -/
theorem C5_per_item_failure_raises :
    process_court_emails worldC5 "2026-01-02" ["recipient@example.com"] false =
      .error .valueError ∧
    worldC5.fetchPage "https://www.cafc.uscourts.gov/case-c" = none ∧
    process_uscourts_link worldC5.fetchPage worldC5.fetchPdf
        "https://www.cafc.uscourts.gov/case-c" "pdfs" =
      ([.vnone, .vbool false, .vnone, .vnone], []) ∧
    unpack6 [.vnone, .vbool false, .vnone, .vnone] = .error .valueError :=
  ⟨rfl, rfl, rfl, rfl⟩
